import Mathlib

/-!
# Verification of the CircuitCanvas physics and animation core

Shallow embedding of the circuit physics evaluator, the capacitor-voltage
display formula, and the animation driver of `src/components/CircuitCanvas.tsx`.
JavaScript numbers are modelled by real numbers; `Math.exp` by `Real.exp`;
JavaScript's `%` operator by a truncating remainder on `ℝ`.
-/

open Filter

/-- The circuit topology selection: `'series' | 'parallel' | 'rc-delay'`
(`CircuitMode` in `types.ts`). -/
inductive CircuitMode : Type
  | series
  | parallel
  | rcDelay
deriving DecidableEq

/-- The electrical configuration pushed into the canvas by the host UI
(`CircuitState` in `types.ts`). -/
structure CircuitState : Type where
  isSwitchClosed : Bool
  voltage : ℝ
  resistance1 : ℝ
  resistance2 : ℝ
  capacitance : ℝ

/-- The derived electrical quantities computed at the top of the
`CircuitCanvas` component body: the local variables `current`,
`bulb1Brightness`, `bulb2Brightness` of `CircuitCanvas.tsx` lines 71-105. -/
structure DerivedElectricalState : Type where
  current : ℝ
  bulb1Brightness : ℝ
  bulb2Brightness : ℝ

/-- The physics evaluation from `CircuitCanvas.tsx` lines 71-105: the three
local variables start at `0`; when `state.isSwitchClosed` holds they are
assigned per topology (series voltage-divider, parallel branch currents,
or the RC charging transient `I(t) = (V/R) * exp(-t/RC)`). -/
noncomputable def evaluate (mode : CircuitMode) (state : CircuitState) (simTime : ℝ) :
    DerivedElectricalState :=
  if state.isSwitchClosed then
    match mode with
    | CircuitMode.series =>
        let Req := state.resistance1 + state.resistance2
        let current := state.voltage / Req
        { current := current
          bulb1Brightness := (current * state.resistance1) / 10
          bulb2Brightness := (current * state.resistance2) / 10 }
    | CircuitMode.parallel =>
        let I1 := state.voltage / state.resistance1
        let I2 := state.voltage / state.resistance2
        { current := I1 + I2
          bulb1Brightness := I1 / 5
          bulb2Brightness := I2 / 5 }
    | CircuitMode.rcDelay =>
        let R := state.resistance1
        let C := state.capacitance * 1e-6
        let tau := R * C
        let instantaneousCurrent := (state.voltage / R) * Real.exp (-simTime / tau)
        { current := instantaneousCurrent
          bulb1Brightness := instantaneousCurrent * 5
          bulb2Brightness := 0 }
  else
    { current := 0, bulb1Brightness := 0, bulb2Brightness := 0 }

/-- The capacitor voltage rendered in the rc-delay branch of the SVG,
`CircuitCanvas.tsx` line 254:
`state.voltage * (1 - Math.exp(-simTime / (state.resistance1 * state.capacitance * 1e-6)))`. -/
noncomputable def capacitorVoltageDisplay (state : CircuitState) (simTime : ℝ) : ℝ :=
  state.voltage * (1 - Real.exp (-simTime / (state.resistance1 * state.capacitance * 1e-6)))

/-- The per-frame animation speed computed in `animate`,
`CircuitCanvas.tsx` line 112:
`state.isSwitchClosed ? Math.min(current * 2, 10) : 0`. -/
noncomputable def speed (isSwitchClosed : Bool) (current : ℝ) : ℝ :=
  if isSwitchClosed then min (current * 2) 10 else 0

/-- JavaScript's `%` operator on (finite, nonzero-divisor) numbers: the
remainder `x - y * q` where `q` is `x / y` truncated toward zero, so the
result carries the sign of the dividend `x`. -/
noncomputable def jsRem (x y : ℝ) : ℝ :=
  x - y * ((if 0 ≤ x / y then ⌊x / y⌋ else ⌈x / y⌉ : ℤ) : ℝ)

/-- One frame update of the animation phase, `CircuitCanvas.tsx` line 113:
`setOffset(prev => (prev - speed) % 1000)`. -/
noncomputable def stepOffset (prev s : ℝ) : ℝ :=
  jsRem (prev - s) 1000

/-- Evaluating the series branch, unfolded. -/
theorem evaluate_series (V R1 R2 C t : ℝ) :
    evaluate CircuitMode.series ⟨true, V, R1, R2, C⟩ t =
      { current := V / (R1 + R2)
        bulb1Brightness := (V / (R1 + R2) * R1) / 10
        bulb2Brightness := (V / (R1 + R2) * R2) / 10 } := rfl

/-- Evaluating the parallel branch, unfolded. -/
theorem evaluate_parallel (V R1 R2 C t : ℝ) :
    evaluate CircuitMode.parallel ⟨true, V, R1, R2, C⟩ t =
      { current := V / R1 + V / R2
        bulb1Brightness := (V / R1) / 5
        bulb2Brightness := (V / R2) / 5 } := rfl

/-- Evaluating the rc-delay branch, unfolded. -/
theorem evaluate_rcDelay (V R1 R2 C t : ℝ) :
    evaluate CircuitMode.rcDelay ⟨true, V, R1, R2, C⟩ t =
      { current := (V / R1) * Real.exp (-t / (R1 * (C * 1e-6)))
        bulb1Brightness := ((V / R1) * Real.exp (-t / (R1 * (C * 1e-6)))) * 5
        bulb2Brightness := 0 } := rfl

/-- C1: with the switch closed and `V, R1, R2 > 0`, the series evaluator
returns `current = V / (R1 + R2)`, `brightness1 = (current * R1) / 10` and
`brightness2 = (current * R2) / 10`, for every elapsed time. -/
theorem series_current_law (V R1 R2 C t : ℝ)
    (hV : 0 < V) (hR1 : 0 < R1) (hR2 : 0 < R2) :
    (evaluate CircuitMode.series ⟨true, V, R1, R2, C⟩ t).current = V / (R1 + R2) ∧
    (evaluate CircuitMode.series ⟨true, V, R1, R2, C⟩ t).bulb1Brightness =
      ((evaluate CircuitMode.series ⟨true, V, R1, R2, C⟩ t).current * R1) / 10 ∧
    (evaluate CircuitMode.series ⟨true, V, R1, R2, C⟩ t).bulb2Brightness =
      ((evaluate CircuitMode.series ⟨true, V, R1, R2, C⟩ t).current * R2) / 10 :=
  ⟨rfl, rfl, rfl⟩

/-- C1 witness: concrete scenario A — series, `V=9, R1=100, R2=200`, switch
closed: `current = 0.03`, `brightness1 = 0.3`, `brightness2 = 0.6`. -/
theorem series_current_law_witness :
    (evaluate CircuitMode.series ⟨true, 9, 100, 200, 1⟩ 0).current = 0.03 ∧
    (evaluate CircuitMode.series ⟨true, 9, 100, 200, 1⟩ 0).bulb1Brightness = 0.3 ∧
    (evaluate CircuitMode.series ⟨true, 9, 100, 200, 1⟩ 0).bulb2Brightness = 0.6 := by
  obtain ⟨h1, h2, h3⟩ := series_current_law 9 100 200 1 0
    (by norm_num) (by norm_num) (by norm_num)
  refine ⟨?_, ?_, ?_⟩
  · rw [h1]; norm_num
  · rw [h2, h1]; norm_num
  · rw [h3, h1]; norm_num

/-- C2: with the switch closed and `V, R1, R2 > 0`, the parallel evaluator
returns branch currents `I1 = V / R1`, `I2 = V / R2`,
`totalCurrent = I1 + I2`, `brightness1 = I1 / 5`, `brightness2 = I2 / 5`,
for every elapsed time. -/
theorem parallel_current_law (V R1 R2 C t : ℝ)
    (hV : 0 < V) (hR1 : 0 < R1) (hR2 : 0 < R2) :
    (evaluate CircuitMode.parallel ⟨true, V, R1, R2, C⟩ t).current = V / R1 + V / R2 ∧
    (evaluate CircuitMode.parallel ⟨true, V, R1, R2, C⟩ t).bulb1Brightness = (V / R1) / 5 ∧
    (evaluate CircuitMode.parallel ⟨true, V, R1, R2, C⟩ t).bulb2Brightness = (V / R2) / 5 :=
  ⟨rfl, rfl, rfl⟩

/-- C2 witness: concrete scenario B — parallel, `V=5, R1=10, R2=20`, switch
closed: `totalCurrent = 0.75`, `brightness1 = 0.1`, `brightness2 = 0.05`. -/
theorem parallel_current_law_witness :
    (evaluate CircuitMode.parallel ⟨true, 5, 10, 20, 1⟩ 0).current = 0.75 ∧
    (evaluate CircuitMode.parallel ⟨true, 5, 10, 20, 1⟩ 0).bulb1Brightness = 0.1 ∧
    (evaluate CircuitMode.parallel ⟨true, 5, 10, 20, 1⟩ 0).bulb2Brightness = 0.05 := by
  obtain ⟨h1, h2, h3⟩ := parallel_current_law 5 10 20 1 0
    (by norm_num) (by norm_num) (by norm_num)
  refine ⟨?_, ?_, ?_⟩
  · rw [h1]; norm_num
  · rw [h2]; norm_num
  · rw [h3]; norm_num

/-- C3: with the switch closed and `V > 0`, `R1 > 0`, `C > 0`, `t ≥ 0`, the
rc-delay evaluator uses `tau = R1 * (C * 1e-6)` and returns
`current = (V / R1) * exp(-t / tau)`, `brightness1 = current * 5`, and the
displayed capacitor voltage is `V * (1 - exp(-t / tau))`. -/
theorem rcDelay_current_law (V R1 R2 C t : ℝ)
    (hV : 0 < V) (hR1 : 0 < R1) (hC : 0 < C) (ht : 0 ≤ t) :
    (evaluate CircuitMode.rcDelay ⟨true, V, R1, R2, C⟩ t).current =
      (V / R1) * Real.exp (-t / (R1 * (C * 1e-6))) ∧
    (evaluate CircuitMode.rcDelay ⟨true, V, R1, R2, C⟩ t).bulb1Brightness =
      (evaluate CircuitMode.rcDelay ⟨true, V, R1, R2, C⟩ t).current * 5 ∧
    capacitorVoltageDisplay ⟨true, V, R1, R2, C⟩ t =
      V * (1 - Real.exp (-t / (R1 * (C * 1e-6)))) := by
  refine ⟨rfl, rfl, ?_⟩
  unfold capacitorVoltageDisplay
  rw [mul_assoc]

/-- C3 witness: concrete scenario C — rc-delay, `V=10, R1=1000, C=100μF`,
`t=0.1`: `tau = 0.1`, `current = (10/1000) * exp(-1)`,
`capacitorVoltage = 10 * (1 - exp(-1))`. -/
theorem rcDelay_current_law_witness :
    (evaluate CircuitMode.rcDelay ⟨true, 10, 1000, 200, 100⟩ 0.1).current =
      (10 / 1000) * Real.exp (-1) ∧
    capacitorVoltageDisplay ⟨true, 10, 1000, 200, 100⟩ 0.1 =
      10 * (1 - Real.exp (-1)) := by
  obtain ⟨h1, h2, h3⟩ := rcDelay_current_law 10 1000 200 100 0.1
    (by norm_num) (by norm_num) (by norm_num) (by norm_num)
  constructor
  · rw [h1]; norm_num
  · rw [h3]; norm_num

/-- C4: for every topology, configuration and elapsed time, an open switch
(`isSwitchClosed = false`) yields zero current and zero brightness for both
bulbs. -/
theorem open_switch_zero (mode : CircuitMode) (V R1 R2 C t : ℝ) :
    evaluate mode ⟨false, V, R1, R2, C⟩ t =
      { current := 0, bulb1Brightness := 0, bulb2Brightness := 0 } := rfl

/-- C5: the derived electrical state is a pure, deterministic function of
`(topology, configuration, elapsed time)`: two evaluations with identical
inputs produce identical outputs (and `evaluate` takes no animation-phase
argument at all, so the result cannot depend on the phase offset). -/
theorem evaluate_deterministic (m1 m2 : CircuitMode) (c1 c2 : CircuitState)
    (t1 t2 : ℝ) (hm : m1 = m2) (hc : c1 = c2) (ht : t1 = t2) :
    evaluate m1 c1 t1 = evaluate m2 c2 t2 := by
  rw [hm, hc, ht]

/-- C5 witness: two evaluations of the same concrete triple coincide. -/
theorem evaluate_deterministic_witness :
    evaluate CircuitMode.series ⟨true, 9, 100, 200, 1⟩ 0 =
      evaluate CircuitMode.series ⟨true, 9, 100, 200, 1⟩ 0 :=
  evaluate_deterministic CircuitMode.series CircuitMode.series
    ⟨true, 9, 100, 200, 1⟩ ⟨true, 9, 100, 200, 1⟩ 0 0 rfl rfl rfl

/-- C6: the per-frame speed is `min (current * 2) 10` when the switch is
closed and `0` when it is open; in particular it never exceeds `10`, for
every value of `current`. -/
theorem speed_cap (c : Bool) (current : ℝ) :
    speed c current ≤ 10 ∧ speed false current = 0 ∧
      speed true current = min (current * 2) 10 := by
  refine ⟨?_, ?_, ?_⟩
  · cases c
    · show (if false then min (current * 2) 10 else 0 : ℝ) ≤ 10
      norm_num
    · show min (current * 2) 10 ≤ 10
      exact min_le_right _ _
  · rfl
  · rfl

/-- C10: Kirchhoff's voltage law for the rc-delay display: for `V > 0`,
`R1 > 0`, `C > 0` and `t ≥ 0`, the displayed capacitor voltage plus the
voltage drop `current * R1` across the resistor equals the source voltage. -/
theorem rc_kvl (V R1 R2 C t : ℝ)
    (hV : 0 < V) (hR1 : 0 < R1) (hC : 0 < C) (ht : 0 ≤ t) :
    capacitorVoltageDisplay ⟨true, V, R1, R2, C⟩ t +
      (evaluate CircuitMode.rcDelay ⟨true, V, R1, R2, C⟩ t).current * R1 = V := by
  have hR1' : R1 ≠ 0 := ne_of_gt hR1
  show V * (1 - Real.exp (-t / (R1 * C * 1e-6))) +
      (V / R1) * Real.exp (-t / (R1 * (C * 1e-6))) * R1 = V
  rw [mul_assoc R1 C 1e-6]
  field_simp
  ring

/-- C10 witness: the KVL identity at the concrete scenario-C inputs. -/
theorem rc_kvl_witness :
    capacitorVoltageDisplay ⟨true, 10, 1000, 200, 100⟩ 0.1 +
      (evaluate CircuitMode.rcDelay ⟨true, 10, 1000, 200, 100⟩ 0.1).current * 1000 = 10 :=
  rc_kvl 10 1000 200 100 0.1 (by norm_num) (by norm_num) (by norm_num) (by norm_num)

/-- Modelled from the spec: the input-validation boundary of the error-handling
design. The host UI that owns `CircuitState` and would perform this check is
not part of `src/` (only the evaluator component is), so the boundary is
modelled from the spec's words: any of `resistance1`, `resistance2`,
`capacitance` ≤ 0, or `voltage` < 0, is rejected with a descriptive
validation error. -/
noncomputable def validateConfiguration (state : CircuitState) : Except String Unit :=
  if state.resistance1 ≤ 0 then Except.error "resistance1 must be positive"
  else if state.resistance2 ≤ 0 then Except.error "resistance2 must be positive"
  else if state.capacitance ≤ 0 then Except.error "capacitance must be positive"
  else if state.voltage < 0 then Except.error "voltage must be nonnegative"
  else Except.ok ()

/-- Modelled from the spec: boundary-checked evaluation — validation runs
first, and on a validation failure the error propagates and `evaluate` is
never reached, so the evaluator is never asked to divide by zero. -/
noncomputable def checkedEvaluate (mode : CircuitMode) (state : CircuitState) (t : ℝ) :
    Except String DerivedElectricalState :=
  match validateConfiguration state with
  | Except.error e => Except.error e
  | Except.ok _ => Except.ok (evaluate mode state t)

/-- C7: every configuration with `resistance1 ≤ 0`, `resistance2 ≤ 0`,
`capacitance ≤ 0` or `voltage < 0` is rejected at the boundary: the checked
evaluation produces no derived state, only a descriptive validation error. -/
theorem invalid_configuration_rejected (mode : CircuitMode) (state : CircuitState) (t : ℝ)
    (h : state.resistance1 ≤ 0 ∨ state.resistance2 ≤ 0 ∨
      state.capacitance ≤ 0 ∨ state.voltage < 0) :
    (checkedEvaluate mode state t).isOk = false ∧
      ∃ e : String, checkedEvaluate mode state t = Except.error e := by
  have herr : ∃ e : String, checkedEvaluate mode state t = Except.error e := by
    unfold checkedEvaluate validateConfiguration
    split_ifs with h1 h2 h3 h4
    · exact ⟨_, rfl⟩
    · exact ⟨_, rfl⟩
    · exact ⟨_, rfl⟩
    · exact ⟨_, rfl⟩
    · exfalso
      push_neg at h1 h2 h3 h4
      rcases h with h | h | h | h <;> linarith
  obtain ⟨e, he⟩ := herr
  exact ⟨by rw [he]; rfl, ⟨e, he⟩⟩

/-- C7 witness: a configuration with `resistance1 = 0` is rejected. -/
theorem invalid_configuration_rejected_witness :
    (checkedEvaluate CircuitMode.series ⟨true, 5, 0, 10, 1⟩ 0).isOk = false :=
  (invalid_configuration_rejected CircuitMode.series ⟨true, 5, 0, 10, 1⟩ 0
    (Or.inl (by norm_num))).1

/-- C8: for the rc-delay topology with the switch closed and fixed
`V, R1, C > 0`, the current is strictly decreasing in elapsed time on
`[0, ∞)` and tends to `0` as the elapsed time tends to infinity. -/
theorem rc_decay_strictAnti (V R1 R2 C : ℝ)
    (hV : 0 < V) (hR1 : 0 < R1) (hC : 0 < C) :
    StrictAntiOn (fun t => (evaluate CircuitMode.rcDelay ⟨true, V, R1, R2, C⟩ t).current)
      (Set.Ici (0 : ℝ)) ∧
    Tendsto (fun t => (evaluate CircuitMode.rcDelay ⟨true, V, R1, R2, C⟩ t).current)
      atTop (nhds 0) := by
  have h6 : (0 : ℝ) < 1e-6 := by norm_num
  have htau : 0 < R1 * (C * 1e-6) := mul_pos hR1 (mul_pos hC h6)
  have hVR : 0 < V / R1 := div_pos hV hR1
  have hfun : ∀ t : ℝ, (evaluate CircuitMode.rcDelay ⟨true, V, R1, R2, C⟩ t).current =
      (V / R1) * Real.exp (-t / (R1 * (C * 1e-6))) := fun t => rfl
  constructor
  · intro t1 _ t2 _ hlt
    simp only [hfun]
    refine mul_lt_mul_of_pos_left ?_ hVR
    refine Real.exp_lt_exp.mpr ?_
    exact div_lt_div_of_pos_right (neg_lt_neg hlt) htau
  · have h1 : Tendsto (fun t : ℝ => t / (R1 * (C * 1e-6))) atTop atTop :=
      Tendsto.atTop_div_const htau tendsto_id
    have h2 : Tendsto (fun t : ℝ => -(t / (R1 * (C * 1e-6)))) atTop atBot :=
      tendsto_neg_atTop_atBot.comp h1
    have h3 : Tendsto (fun t : ℝ => Real.exp (-(t / (R1 * (C * 1e-6))))) atTop (nhds 0) :=
      Real.tendsto_exp_atBot.comp h2
    have h4 := h3.const_mul (V / R1)
    simp only [mul_zero] at h4
    simp only [hfun, neg_div]
    exact h4

/-- C8 witness: strict decay and convergence to zero at the scenario-C
parameters. -/
theorem rc_decay_strictAnti_witness :
    StrictAntiOn (fun t => (evaluate CircuitMode.rcDelay ⟨true, 10, 1000, 200, 100⟩ t).current)
      (Set.Ici (0 : ℝ)) ∧
    Tendsto (fun t => (evaluate CircuitMode.rcDelay ⟨true, 10, 1000, 200, 100⟩ t).current)
      atTop (nhds 0) :=
  rc_decay_strictAnti 10 1000 200 100 (by norm_num) (by norm_num) (by norm_num)

/-- One frame update with a speed in `[0, 10]` keeps the phase offset in
`(-1000, 0]`. -/
theorem stepOffset_mem_Ioc (x s : ℝ) (hx : x ∈ Set.Ioc (-1000 : ℝ) 0)
    (hs0 : 0 ≤ s) (hs10 : s ≤ 10) : stepOffset x s ∈ Set.Ioc (-1000 : ℝ) 0 := by
  obtain ⟨hx1, hx2⟩ := hx
  unfold stepOffset jsRem
  have hd1 : -1010 < x - s := by linarith
  have hd2 : x - s ≤ 0 := by linarith
  rcases eq_or_lt_of_le hd2 with hd0 | hdneg
  · rw [hd0]
    norm_num [Set.mem_Ioc]
  · have hq : (x - s) / 1000 < 0 := div_neg_of_neg_of_pos hdneg (by norm_num)
    rw [if_neg (not_le.mpr hq)]
    by_cases hcase : -1000 < x - s
    · have hceil : ⌈(x - s) / 1000⌉ = 0 := by
        rw [Int.ceil_eq_zero_iff]
        constructor
        · rw [lt_div_iff₀ (by norm_num : (0 : ℝ) < 1000)]
          linarith
        · exact le_of_lt hq
      rw [hceil]
      constructor
      · push_cast
        linarith
      · push_cast
        linarith
    · push_neg at hcase
      have hceil : ⌈(x - s) / 1000⌉ = -1 := by
        rw [Int.ceil_eq_iff]
        constructor
        · push_cast
          rw [lt_div_iff₀ (by norm_num : (0 : ℝ) < 1000)]
          linarith
        · push_cast
          rw [div_le_iff₀ (by norm_num : (0 : ℝ) < 1000)]
          linarith
      rw [hceil]
      constructor
      · push_cast
        linarith
      · push_cast
        linarith

/-- Folding frame updates with speeds in `[0, 10]` preserves membership of
the phase offset in `(-1000, 0]`. -/
theorem foldl_stepOffset_mem (speeds : List ℝ) :
    ∀ x ∈ Set.Ioc (-1000 : ℝ) 0, (∀ s ∈ speeds, 0 ≤ s ∧ s ≤ 10) →
      speeds.foldl stepOffset x ∈ Set.Ioc (-1000 : ℝ) 0 := by
  induction speeds with
  | nil =>
      intro x hx _
      simpa using hx
  | cons a as ih =>
      intro x hx hall
      simp only [List.foldl_cons]
      refine ih _ (stepOffset_mem_Ioc x a hx ?_ ?_) ?_
      · exact (hall a (by simp)).1
      · exact (hall a (by simp)).2
      · intro s hs
        exact hall s (by simp [hs])

/-- C9: starting from offset `0` and applying
`offset := (offset - speed) % 1000` with JavaScript's truncating remainder,
for every sequence of per-frame speeds in `[0, 10]` the offset stays in
`(-1000, 0]`, and in particular strictly within `(-1000, 1000)`. -/
theorem offset_stays_bounded (speeds : List ℝ)
    (h : ∀ s ∈ speeds, 0 ≤ s ∧ s ≤ 10) :
    speeds.foldl stepOffset 0 ∈ Set.Ioc (-1000 : ℝ) 0 ∧
      speeds.foldl stepOffset 0 ∈ Set.Ioo (-1000 : ℝ) 1000 := by
  have hmem := foldl_stepOffset_mem speeds 0 (by constructor <;> norm_num) h
  exact ⟨hmem, ⟨hmem.1, lt_of_le_of_lt hmem.2 (by norm_num)⟩⟩

/-- C9 witness: a concrete three-frame speed sequence keeps the offset in
`(-1000, 0]`. -/
theorem offset_stays_bounded_witness :
    [(10 : ℝ), 5, 0].foldl stepOffset 0 ∈ Set.Ioc (-1000 : ℝ) 0 :=
  (offset_stays_bounded [10, 5, 0] (by
    intro s hs
    simp only [List.mem_cons, List.not_mem_nil, or_false] at hs
    rcases hs with h | h | h <;> subst h <;> norm_num)).1
